import Mathlib

/-!
Verification of the connection/secret lifecycle and query-dispatch helpers of
the DuckDB Snowflake Explorer (src/streamlit_app/app.py), shallowly embedded.

Python strings are modelled as lists of characters (`Str`).  The embedded
DuckDB engine is modelled as an oracle mapping each SQL text to either the
text of a raised exception or a result; the helpers under verification only
marshal strings, route outcomes and update session state, so this captures
their behaviour exactly.  Statement-building literals are assembled from
quote-free pieces together with the explicit single-quote character `qc`.
-/

/-- Python strings, modelled as lists of characters. -/
abbrev Str : Type := List Char

/-- The single-quote character (ASCII 39). -/
def qc : Char := Char.ofNat 39

/-- Wraps a string in single quotes, as the f-string interpolations such as
`ACCOUNT {account}` (with the interpolation site quoted) do. -/
def quoteWrap (s : Str) : Str := qc :: s ++ [qc]

/-- Embeds `sf_sql.replace(chr(39), chr(39)*2)` from `_snowflake_query`:
Python str.replace with a one-character pattern replaces each occurrence,
so every single quote is doubled and every other character kept. -/
def escapeQuotes (s : Str) : Str :=
  s.flatMap fun c => if c = qc then [qc, qc] else [c]

/-- Embeds the wrapper f-string of `_snowflake_query` (app.py line 209):
`SELECT * FROM snowflake_query(<q><escaped><q>, <q><secret><q>);` where
`<q>` is a single quote. -/
def wrapperStatement (sf_sql secret : Str) : Str :=
  "SELECT * FROM snowflake_query(".data ++ quoteWrap (escapeQuotes sf_sql) ++
    ", ".data ++ quoteWrap secret ++ ");".data

/-- A cell of a pandas DataFrame: either missing (None/NaN) or a value
already rendered as text. -/
inductive Cell where
  | null : Cell
  | val : Str → Cell
deriving DecidableEq

/-- Embeds pandas astype(str) on one cell: present values keep their text,
missing values render as the non-empty placeholder text nan. -/
def cellToStr : Cell → Str
  | Cell.null => "nan".data
  | Cell.val s => s

/-- A pandas DataFrame, column-major: named columns sharing one row count. -/
structure DF where
  cols : List (Str × List Cell)
deriving DecidableEq

/-- Embeds pandas df.empty: true iff there are no columns or no rows
(all columns of a DataFrame share one row count). -/
def DF.emptyDF (df : DF) : Bool :=
  match df.cols with
  | [] => true
  | (_, vs) :: _ => vs.isEmpty

/-- The engine as seen by the query dispatcher: executing one SQL text
yields either the text of the raised exception or a DataFrame together with
the wall-clock seconds that execution plus materialisation took. -/
def QueryEnv : Type := Str → Except Str (DF × ℚ)

/-- Embeds `_run_query_duckdb` (app.py lines 193-202): on success returns
(df, measured elapsed, empty error); on a raised exception returns
(None, 0.0, exception text). -/
def _run_query_duckdb (env : QueryEnv) (sql : Str) : Option DF × ℚ × Str :=
  match env sql with
  | Except.ok (df, elapsed) => (some df, elapsed, [])
  | Except.error e => (none, 0, e)

/-- Embeds `_snowflake_query` (app.py lines 205-210): builds the wrapper
text and delegates to `_run_query_duckdb`. -/
def _snowflake_query (env : QueryEnv) (sf_sql secret : Str) : Option DF × ℚ × Str :=
  _run_query_duckdb env (wrapperStatement sf_sql secret)

/-- Embeds Python str.lower applied characterwise. -/
def lowerStr (s : Str) : Str := s.map Char.toLower

/-- Embeds pandas df.iloc[:, i]: the column at position i; out-of-range
positions raise an IndexError. -/
def dfColByPos (df : DF) (i : Nat) : Except Str (List Cell) :=
  match df.cols[i]? with
  | some c => Except.ok c.2
  | none => Except.error "IndexError: single positional indexer is out-of-bounds".data

/-- Embeds `_sf_fetch_list` (app.py lines 213-230).  The result is inside
Except because the positional branch can raise past this function; every
other path returns a plain list. -/
def _sf_fetch_list (env : QueryEnv) (sf_sql secret : Str) (col : Str ⊕ Nat) :
    Except Str (List Str) :=
  match (_snowflake_query env sf_sql secret).1 with
  | some df =>
    if df.emptyDF then Except.ok [] else
      match col with
      | Sum.inl name =>
        match df.cols.find? (fun c => lowerStr c.1 == lowerStr name) with
        | some c => Except.ok ((c.2.filter fun x => x != Cell.null).map cellToStr)
        | none => (dfColByPos df 0).map fun vs => vs.map cellToStr
      | Sum.inr i => (dfColByPos df i).map fun vs => vs.map cellToStr
  | none => Except.ok []

/-- The engine as seen by the statement-executing helpers, where at most a
fetched scalar rendered as text is consumed from a successful execution. -/
def ExecEnv : Type := Str → Except Str Str

/-- The keyword parameters of `_create_secret` other than the secret name
(app.py lines 126-139); all-empty defaults as in the source. -/
structure SecretParams where
  account : Str
  user : Str
  auth_method : Str
  password : Str := []
  warehouse : Str := []
  database : Str := []
  role : Str := []
  oauth_token : Str := []
  private_key_pem : Str := []
  private_key_passphrase : Str := []
deriving DecidableEq

/-- Embeds the f-string `DROP SECRET IF EXISTS {secret_name};`. -/
def dropSecretSQL (secret_name : Str) : Str :=
  "DROP SECRET IF EXISTS ".data ++ secret_name ++ ";".data

/-- Embeds the clause-list construction of `_create_secret` (app.py lines
146-169): base clauses, then appends switched on auth_method, then appends
for each truthy (non-empty) optional field, in source order. -/
def secretParts (p : SecretParams) : List Str :=
  let parts : List Str :=
    ["TYPE snowflake".data,
     "ACCOUNT ".data ++ quoteWrap p.account,
     "USER ".data ++ quoteWrap p.user]
  let parts : List Str :=
    if p.auth_method = "Password".data then
      parts ++ ["PASSWORD ".data ++ quoteWrap p.password]
    else if p.auth_method = "Key Pair".data then
      (parts ++ ["AUTH_TYPE ".data ++ quoteWrap "key_pair".data,
                 "PRIVATE_KEY ".data ++ quoteWrap p.private_key_pem]) ++
        (if p.private_key_passphrase ≠ [] then
           ["PRIVATE_KEY_PASSPHRASE ".data ++ quoteWrap p.private_key_passphrase]
         else [])
    else if p.auth_method = "OAuth Token".data then
      parts ++ ["AUTH_TYPE ".data ++ quoteWrap "oauth".data,
                "TOKEN ".data ++ quoteWrap p.oauth_token]
    else parts
  let parts :=
    if p.database ≠ [] then parts ++ ["DATABASE ".data ++ quoteWrap p.database] else parts
  let parts :=
    if p.warehouse ≠ [] then parts ++ ["WAREHOUSE ".data ++ quoteWrap p.warehouse] else parts
  let parts :=
    if p.role ≠ [] then parts ++ ["ROLE ".data ++ quoteWrap p.role] else parts
  parts

/-- Embeds the f-string `CREATE SECRET {secret_name} ({joined parts});`
of app.py line 171, with the parts joined by comma-space. -/
def createSecretSQL (secret_name : Str) (p : SecretParams) : Str :=
  "CREATE SECRET ".data ++ secret_name ++ " (".data ++
    List.intercalate ", ".data (secretParts p) ++ ");".data

/-- Embeds `_create_secret` (app.py lines 140-176): attempts the DROP (its
exception is swallowed and its outcome never consulted), then attempts the
CREATE; returns ((ok, msg), the statements attempted in order). -/
def _create_secret (env : ExecEnv) (secret_name : Str) (p : SecretParams) :
    (Bool × Str) × List Str :=
  let attempted := [dropSecretSQL secret_name, createSecretSQL secret_name p]
  match env (createSecretSQL secret_name p) with
  | Except.ok _ => ((true, "Secret created".data), attempted)
  | Except.error e => ((false, e), attempted)

/-- The INSTALL statement issued by `_ensure_extension` (app.py line 111). -/
def installSQL : Str := "INSTALL snowflake FROM community;".data

/-- The LOAD statement issued by `_ensure_extension` (app.py line 115). -/
def loadSQL : Str := "LOAD snowflake;".data

/-- The version probe issued by `_ensure_extension` (app.py line 119). -/
def versionSQL : Str := "SELECT snowflake_version();".data

/-- Embeds `_ensure_extension` (app.py lines 106-123) together with the
session flag extension_loaded it reads and writes.  Returns
(((ok, detail), new flag value), the statements attempted in order).
The INSTALL outcome is swallowed; a LOAD exception returns its text
verbatim and leaves the flag untouched; a version-probe exception only
downgrades the detail to unknown. -/
def _ensure_extension (env : ExecEnv) (extension_loaded : Bool) :
    ((Bool × Str) × Bool) × List Str :=
  if extension_loaded then
    (((true, "already loaded".data), extension_loaded), [])
  else
    match env loadSQL with
    | Except.error e => (((false, e), extension_loaded), [installSQL, loadSQL])
    | Except.ok _ =>
      match env versionSQL with
      | Except.ok ver => (((true, ver), true), [installSQL, loadSQL, versionSQL])
      | Except.error _ => (((true, "unknown".data), true), [installSQL, loadSQL, versionSQL])

/-- The session-state fields touched by the connection lifecycle
(the _DEFAULTS dict, app.py lines 75-90; result-cache fields that the
disconnect handler never touches are omitted).  The DuckDB handle is
modelled by an identifier. -/
structure SessionState where
  connected : Bool
  secret_name : Str
  attach_alias : Str
  conn_string_preview : Str
  query_history : List Str
  current_db : Option Str
  current_schema : Option Str
  current_table : Option Str
  duckdb_conn : Option Nat
  extension_loaded : Bool
deriving DecidableEq

/-- Embeds the f-string `DETACH {alias};` of the disconnect handler. -/
def detachSQL (attachAlias : Str) : Str := "DETACH ".data ++ attachAlias ++ ";".data

/-- Embeds the disconnect handler (app.py lines 339-359): when a handle is
cached it attempts DROP SECRET and, for a truthy attach alias, DETACH, both
inside try/except blocks whose outcome is ignored; then unconditionally
resets the session fields.  Returns (new state, statements attempted). -/
def disconnect (_env : ExecEnv) (st : SessionState) : SessionState × List Str :=
  let attempted :=
    match st.duckdb_conn with
    | some _ =>
        [dropSecretSQL st.secret_name] ++
          (if st.attach_alias ≠ [] then [detachSQL st.attach_alias] else [])
    | none => []
  ({ st with
      connected := false
      secret_name := []
      attach_alias := []
      current_db := none
      current_schema := none
      current_table := none
      extension_loaded := false
      duckdb_conn := none },
   attempted)

/-- A query-history entry (the dict literals at app.py lines 569-573 and
673-677). -/
structure HistoryEntry where
  sql : Str
  mode : Str
  rows : Nat
  time : Str
  ts : Str
deriving DecidableEq

/-- Embeds the history insertion of the Snowflake-passthrough tab (app.py
lines 569-574): query_history.insert(0, entry) then slicing to the first
50 entries. -/
def historyInsertQuery (e : HistoryEntry) (h : List HistoryEntry) : List HistoryEntry :=
  (e :: h).take 50

/-- Embeds the history insertion of the DuckDB-local tab (app.py lines
673-678): the same insert-at-front followed by slicing to 50. -/
def historyInsertLocal (e : HistoryEntry) (h : List HistoryEntry) : List HistoryEntry :=
  (e :: h).take 50

/-- Folds a sequence of insertions (each one a UI interaction) over a
starting history, oldest first. -/
def historyInsertAll (es : List HistoryEntry) (h : List HistoryEntry) : List HistoryEntry :=
  es.foldl (fun acc e => historyInsertQuery e acc) h

/-- Reads quote-doubled text back: a doubled quote becomes one quote.  Used
to state that the doubling performed by `escapeQuotes` is faithful. -/
def unescapeQuotes : Str → Str
  | [] => []
  | [c] => [c]
  | c1 :: c2 :: rest =>
    if c1 = qc ∧ c2 = qc then qc :: unescapeQuotes rest
    else c1 :: unescapeQuotes (c2 :: rest)

/-- Spec-side grouping: the three clauses every CREATE SECRET statement
carries (spec section 4.1). -/
def baseClauses (p : SecretParams) : List Str :=
  ["TYPE snowflake".data,
   "ACCOUNT ".data ++ quoteWrap p.account,
   "USER ".data ++ quoteWrap p.user]

/-- Spec-side grouping: the auth-material clause group implied by the auth
method (spec section 4.1): password; or key-pair with private key and
optional passphrase; or oauth with token; nothing for an unrecognised
method. -/
def authMaterialClauses (p : SecretParams) : List Str :=
  if p.auth_method = "Password".data then
    ["PASSWORD ".data ++ quoteWrap p.password]
  else if p.auth_method = "Key Pair".data then
    ["AUTH_TYPE ".data ++ quoteWrap "key_pair".data,
     "PRIVATE_KEY ".data ++ quoteWrap p.private_key_pem] ++
      (if p.private_key_passphrase ≠ [] then
         ["PRIVATE_KEY_PASSPHRASE ".data ++ quoteWrap p.private_key_passphrase]
       else [])
  else if p.auth_method = "OAuth Token".data then
    ["AUTH_TYPE ".data ++ quoteWrap "oauth".data,
     "TOKEN ".data ++ quoteWrap p.oauth_token]
  else []

/-- Spec-side grouping: one optional clause per non-empty optional field,
in source order database, warehouse, role. -/
def optionalClauses (p : SecretParams) : List Str :=
  (if p.database ≠ [] then ["DATABASE ".data ++ quoteWrap p.database] else []) ++
  (if p.warehouse ≠ [] then ["WAREHOUSE ".data ++ quoteWrap p.warehouse] else []) ++
  (if p.role ≠ [] then ["ROLE ".data ++ quoteWrap p.role] else [])

/-- The connect-flow parameters of the end-to-end example of spec section 8:
account xy12345, user alice, Password auth with password secret. -/
def pwParams : SecretParams :=
  { account := "xy12345".data, user := "alice".data,
    auth_method := "Password".data, password := "secret".data }

/-- A Password-auth parameter set with a non-empty optional database
field, exercising one optional clause. -/
def pwParamsDb : SecretParams :=
  { account := "xy12345".data, user := "alice".data,
    auth_method := "Password".data, password := "pw".data,
    database := "MY_DB".data }

/-- An engine on which every statement succeeds. -/
def envExecOk : ExecEnv := fun _ => Except.ok []

/-- An engine on which every statement raises. -/
def envCreateFail : ExecEnv := fun _ => Except.error "Invalid Input Error".data

/-- An engine on which every statement raises, used against LOAD. -/
def envLoadFail : ExecEnv := fun _ => Except.error "load failed".data

/-- A query engine on which every query raises. -/
def envQueryFail : QueryEnv := fun _ => Except.error "boom".data

/-- A query engine on which every query raises with an empty message, as a
Python exception whose str() is empty does. -/
def envEmptyMsgFail : QueryEnv := fun _ => Except.error []

/-- A one-column result whose column is called name and holds one value
and one missing cell. -/
def dfNulls : DF := ⟨[("name".data, [Cell.val "a".data, Cell.null])]⟩

/-- A query engine answering every query with `dfNulls` instantly. -/
def envNulls : QueryEnv := fun _ => Except.ok (dfNulls, 0)

/-- A one-column result whose column is called NAME in upper case, with one
value and one missing cell, for the case-insensitive lookup. -/
def dfNamed : DF := ⟨[("NAME".data, [Cell.val "db1".data, Cell.null])]⟩

/-- A query engine answering every query with `dfNamed` instantly. -/
def envNamed : QueryEnv := fun _ => Except.ok (dfNamed, 0)

/-- A history entry distinguished by its row count, for concrete history
runs. -/
def mkEntry (i : Nat) : HistoryEntry :=
  { sql := [], mode := [], rows := i, time := [], ts := [] }

/-- Fifty pairwise distinct history entries. -/
def restEntries : List HistoryEntry := (List.range 50).map mkEntry

/-- A history entry distinct from every entry of `restEntries`. -/
def oldestEntry : HistoryEntry := mkEntry 999

/-! Helper lemmas about quote escaping. -/

theorem escapeQuotes_cons (c : Char) (s : Str) :
    escapeQuotes (c :: s) = (if c = qc then [qc, qc] else [c]) ++ escapeQuotes s := by
  simp [escapeQuotes]

theorem escapeQuotes_count (s : Str) : (escapeQuotes s).count qc = 2 * s.count qc := by
  induction s with
  | nil => rfl
  | cons c t ih =>
    rw [escapeQuotes_cons]
    by_cases hc : c = qc
    · subst hc
      simp [List.count_append, List.count_cons, ih]
      ring
    · simp [hc, List.count_append, List.count_cons, ih]

theorem escapeQuotes_eq_nil_iff (s : Str) : escapeQuotes s = [] ↔ s = [] := by
  cases s with
  | nil => simp [escapeQuotes]
  | cons c t =>
    rw [escapeQuotes_cons]
    by_cases hc : c = qc <;> simp [hc]

theorem unescape_escape (s : Str) : unescapeQuotes (escapeQuotes s) = s := by
  induction s with
  | nil => rfl
  | cons c t ih =>
    rw [escapeQuotes_cons]
    by_cases hc : c = qc
    · subst hc
      rw [if_pos rfl, show ([qc, qc] ++ escapeQuotes t) = qc :: qc :: escapeQuotes t from rfl]
      rw [unescapeQuotes]
      simp [ih]
    · rw [if_neg hc, show ([c] ++ escapeQuotes t) = c :: escapeQuotes t from rfl]
      cases ht : escapeQuotes t with
      | nil =>
        have h0 : t = [] := (escapeQuotes_eq_nil_iff t).mp ht
        subst h0
        rfl
      | cons b rest =>
        rw [unescapeQuotes]
        rw [if_neg (by simp [hc])]
        rw [← ht, ih]

theorem quoteWrap_count (s : Str) : (quoteWrap s).count qc = s.count qc + 2 := by
  simp [quoteWrap, List.count_append, List.count_cons]

theorem wrapper_count (sf_sql secret : Str) :
    (wrapperStatement sf_sql secret).count qc =
      2 * sf_sql.count qc + secret.count qc + 4 := by
  have h1 : ("SELECT * FROM snowflake_query(".data).count qc = 0 := by decide
  have h2 : ((", ").data).count qc = 0 := by decide
  have h3 : ((");").data).count qc = 0 := by decide
  rw [wrapperStatement, List.count_append, List.count_append, List.count_append,
    List.count_append, h1, h2, h3, quoteWrap_count, quoteWrap_count, escapeQuotes_count]
  ring

theorem wrapper_suffix (sf_sql secret : Str) :
    (secret ++ [qc] ++ ");".data) <:+ wrapperStatement sf_sql secret := by
  refine ⟨"SELECT * FROM snowflake_query(".data ++ quoteWrap (escapeQuotes sf_sql) ++
    ", ".data ++ [qc], ?_⟩
  simp [wrapperStatement, quoteWrap]

/-- C2 counterexample: the wrapper built from the SQL SELECT 1 and the
secret name s does not end with the secret name; the statement closes with
quote, parenthesis and semicolon after it. -/
theorem wrapper_not_endsWith_secret :
    ¬ ("s".data <:+ wrapperStatement "SELECT 1".data "s".data) := by decide

/-- C2 (amended): for every input SQL and secret name, the wrapper text
doubles exactly the quotes of the input SQL (total quote count is twice the
input count plus the secret-name count plus the four fixed delimiters, and
the doubling is undone by `unescapeQuotes`), and the wrapper ends with the
literal secret name followed by the closing quote-parenthesis-semicolon. -/
theorem wrapper_escaping_amended (sf_sql secret : Str) :
    (wrapperStatement sf_sql secret).count qc =
      2 * sf_sql.count qc + secret.count qc + 4 ∧
    unescapeQuotes (escapeQuotes sf_sql) = sf_sql ∧
    (secret ++ [qc] ++ ");".data) <:+ wrapperStatement sf_sql secret :=
  ⟨wrapper_count sf_sql secret, unescape_escape sf_sql, wrapper_suffix sf_sql secret⟩

set_option maxRecDepth 16384 in
/-- C6: wrapping SELECT 1 with the secret sf_explorer_secret produces
exactly the expected passthrough text with zero quotes doubled; wrapping
the SQL containing the literal a-quote-quote-b yields a wrapper containing
the quadrupled quotes between a and b; and the Password connect example
yields a CREATE SECRET text containing the PASSWORD clause and no
AUTH_TYPE, PRIVATE_KEY or TOKEN clause. -/
theorem end_to_end_examples :
    wrapperStatement "SELECT 1".data "sf_explorer_secret".data =
      "SELECT * FROM snowflake_query(".data ++ [qc] ++ "SELECT 1".data ++ [qc] ++
        ", ".data ++ [qc] ++ "sf_explorer_secret".data ++ [qc] ++ ");".data ∧
    "SELECT 1".data.count qc = 0 ∧
    ([qc] ++ "a".data ++ [qc, qc, qc, qc] ++ "b".data ++ [qc]) <:+:
      wrapperStatement ("SELECT ".data ++ [qc] ++ "a".data ++ [qc, qc] ++ "b".data ++ [qc])
        "sf_explorer_secret".data ∧
    ("PASSWORD ".data ++ [qc] ++ "secret".data ++ [qc]) <:+:
      createSecretSQL "sf_explorer_secret".data pwParams ∧
    ¬ ("AUTH_TYPE".data <:+: createSecretSQL "sf_explorer_secret".data pwParams) ∧
    ¬ ("PRIVATE_KEY".data <:+: createSecretSQL "sf_explorer_secret".data pwParams) ∧
    ¬ ("TOKEN".data <:+: createSecretSQL "sf_explorer_secret".data pwParams) :=
  ⟨by decide, by decide, by decide, by decide, by decide, by decide, by decide⟩

/-- C9 counterexample: when the engine raises with an empty message, the
failing execution returns an empty error text, so the returned error text
is not non-empty for every failure. -/
theorem run_query_empty_error_text :
    envEmptyMsgFail "SELECT 1".data = Except.error [] ∧
    _run_query_duckdb envEmptyMsgFail "SELECT 1".data = (none, 0, []) ∧
    ¬ ((_run_query_duckdb envEmptyMsgFail "SELECT 1".data).2.2 ≠ []) :=
  ⟨rfl, rfl, fun h => h rfl⟩

/-- C9 (amended): on a failing execution `_run_query_duckdb` returns
exactly (absent, elapsed zero, the raised exception text verbatim) — never
a partially measured time, and an error text that is non-empty exactly
when the exception message is — and on success (result, measured elapsed,
empty error text); `_snowflake_query` delegates to the same path on the
wrapper text. -/
theorem run_query_error_zero_elapsed :
    (∀ (env : QueryEnv) (sql e : Str), env sql = Except.error e →
      _run_query_duckdb env sql = (none, 0, e)) ∧
    (∀ (env : QueryEnv) (sql : Str) (df : DF) (t : ℚ), env sql = Except.ok (df, t) →
      _run_query_duckdb env sql = (some df, t, [])) ∧
    (∀ (env : QueryEnv) (sf_sql secret : Str),
      _snowflake_query env sf_sql secret =
        _run_query_duckdb env (wrapperStatement sf_sql secret)) ∧
    (∀ (env : QueryEnv) (sql e : Str), env sql = Except.error e → e ≠ [] →
      (_run_query_duckdb env sql).2.2 ≠ []) := by
  refine ⟨?_, ?_, ?_, ?_⟩
  · intro env sql e he
    simp [_run_query_duckdb, he]
  · intro env sql df t he
    simp [_run_query_duckdb, he]
  · intro env sf_sql secret
    rfl
  · intro env sql e he hne
    simp [_run_query_duckdb, he, hne]

/-- Witness for C9 at a concretely failing engine. -/
theorem run_query_error_zero_elapsed_witness :
    (envQueryFail "SELECT 1".data = Except.error "boom".data ∧ "boom".data ≠ []) ∧
    _run_query_duckdb envQueryFail "SELECT 1".data = (none, 0, "boom".data) ∧
    (_run_query_duckdb envQueryFail "SELECT 1".data).2.2 ≠ [] :=
  ⟨⟨rfl, by decide⟩,
   run_query_error_zero_elapsed.1 envQueryFail "SELECT 1".data "boom".data rfl,
   run_query_error_zero_elapsed.2.2.2 envQueryFail "SELECT 1".data "boom".data rfl (by decide)⟩

/-- C4: the disconnect handler always resets connected to false, the secret
name to empty and the cached handle to absent (together with the attach
alias, browse selections and the extension flag), for every prior session
state; and the resulting state is the same whatever the engine does on the
swallowed DROP SECRET and DETACH cleanup calls. -/
theorem disconnect_always_resets :
    ∀ (env : ExecEnv) (st : SessionState),
      (disconnect env st).1.connected = false ∧
      (disconnect env st).1.secret_name = [] ∧
      (disconnect env st).1.duckdb_conn = none ∧
      (disconnect env st).1.attach_alias = [] ∧
      (disconnect env st).1.current_db = none ∧
      (disconnect env st).1.current_schema = none ∧
      (disconnect env st).1.current_table = none ∧
      (disconnect env st).1.extension_loaded = false ∧
      (∀ env2 : ExecEnv, (disconnect env st).1 = (disconnect env2 st).1) :=
  fun _ _ => ⟨rfl, rfl, rfl, rfl, rfl, rfl, rfl, rfl, fun _ => rfl⟩

/-- C7: once the loaded flag is set `_ensure_extension` short-circuits to
(true, already loaded) issuing no statement; with the flag unset, a LOAD
failure returns the exception text verbatim and leaves the flag unset
(whatever INSTALL did); a LOAD success reports success and sets the flag,
with the version string on a successful probe and the text unknown on a
failed probe; and the whole result never depends on the INSTALL outcome. -/
theorem ensure_extension_idempotent_and_errors :
    (∀ env : ExecEnv,
      _ensure_extension env true = (((true, "already loaded".data), true), [])) ∧
    (∀ (env : ExecEnv) (e : Str), env loadSQL = Except.error e →
      _ensure_extension env false = (((false, e), false), [installSQL, loadSQL])) ∧
    (∀ (env : ExecEnv) (r v : Str), env loadSQL = Except.ok r →
      env versionSQL = Except.ok v →
      _ensure_extension env false = (((true, v), true), [installSQL, loadSQL, versionSQL])) ∧
    (∀ (env : ExecEnv) (r e : Str), env loadSQL = Except.ok r →
      env versionSQL = Except.error e →
      _ensure_extension env false =
        (((true, "unknown".data), true), [installSQL, loadSQL, versionSQL])) ∧
    (∀ (env env2 : ExecEnv) (b : Bool), (∀ s, s ≠ installSQL → env s = env2 s) →
      _ensure_extension env b = _ensure_extension env2 b) := by
  refine ⟨?_, ?_, ?_, ?_, ?_⟩
  · intro env
    rfl
  · intro env e he
    simp [_ensure_extension, he]
  · intro env r v h1 h2
    simp [_ensure_extension, h1, h2]
  · intro env r e h1 h2
    simp [_ensure_extension, h1, h2]
  · intro env env2 b hag
    cases b with
    | true => rfl
    | false =>
      have hl : env loadSQL = env2 loadSQL := hag loadSQL (by decide)
      have hv : env versionSQL = env2 versionSQL := hag versionSQL (by decide)
      cases hL : env2 loadSQL with
      | error e =>
        rw [hL] at hl
        simp [_ensure_extension, hl, hL]
      | ok r =>
        rw [hL] at hl
        cases hV : env2 versionSQL with
        | ok v =>
          rw [hV] at hv
          simp [_ensure_extension, hl, hv, hL, hV]
        | error e =>
          rw [hV] at hv
          simp [_ensure_extension, hl, hv, hL, hV]

/-- Witness for C7 at an engine whose LOAD raises and at the already-loaded
flag. -/
theorem ensure_extension_idempotent_and_errors_witness :
    (envLoadFail loadSQL = Except.error "load failed".data) ∧
    _ensure_extension envLoadFail true = (((true, "already loaded".data), true), []) ∧
    _ensure_extension envLoadFail false =
      (((false, "load failed".data), false), [installSQL, loadSQL]) :=
  ⟨rfl,
   ensure_extension_idempotent_and_errors.1 envLoadFail,
   ensure_extension_idempotent_and_errors.2.1 envLoadFail "load failed".data rfl⟩

/-! Helper lemma: the DROP and CREATE statements are never the same text. -/

theorem dropSecretSQL_ne_createSecretSQL (secret_name : Str) (p : SecretParams) :
    dropSecretSQL secret_name ≠ createSecretSQL secret_name p := by
  intro h
  have h1 : dropSecretSQL secret_name =
      Char.ofNat 68 :: ("ROP SECRET IF EXISTS ".data ++ secret_name ++ ";".data) := rfl
  have h2 : createSecretSQL secret_name p =
      Char.ofNat 67 :: ("REATE SECRET ".data ++ secret_name ++ " (".data ++
        List.intercalate ", ".data (secretParts p) ++ ");".data) := rfl
  rw [h1, h2] at h
  injection h with hc _
  exact absurd hc (by decide)

/-- C8: `_create_secret` always attempts exactly the DROP followed by the
CREATE, never retrying either; the DROP outcome is ignored, so the returned
flag and message depend only on the CREATE outcome: success yields
(true, Secret created) and a raised CREATE yields (false, the verbatim
exception text). -/
theorem create_secret_drop_ignored :
    (∀ (env : ExecEnv) (secret_name : Str) (p : SecretParams),
      (_create_secret env secret_name p).2 =
        [dropSecretSQL secret_name, createSecretSQL secret_name p]) ∧
    (∀ (secret_name : Str) (p : SecretParams),
      dropSecretSQL secret_name ≠ createSecretSQL secret_name p) ∧
    (∀ (env : ExecEnv) (secret_name : Str) (p : SecretParams) (r : Str),
      env (createSecretSQL secret_name p) = Except.ok r →
      (_create_secret env secret_name p).1 = (true, "Secret created".data)) ∧
    (∀ (env : ExecEnv) (secret_name : Str) (p : SecretParams) (e : Str),
      env (createSecretSQL secret_name p) = Except.error e →
      (_create_secret env secret_name p).1 = (false, e)) ∧
    (∀ (env env2 : ExecEnv) (secret_name : Str) (p : SecretParams),
      env (createSecretSQL secret_name p) = env2 (createSecretSQL secret_name p) →
      _create_secret env secret_name p = _create_secret env2 secret_name p) := by
  refine ⟨?_, ?_, ?_, ?_, ?_⟩
  · intro env secret_name p
    cases h : env (createSecretSQL secret_name p) <;> simp [_create_secret, h]
  · exact dropSecretSQL_ne_createSecretSQL
  · intro env secret_name p r h
    simp [_create_secret, h]
  · intro env secret_name p e h
    simp [_create_secret, h]
  · intro env env2 secret_name p h
    simp [_create_secret, h]

/-- Witness for C8 at an engine whose CREATE raises. -/
theorem create_secret_drop_ignored_witness :
    (envCreateFail (createSecretSQL "sf_explorer_secret".data pwParams) =
      Except.error "Invalid Input Error".data) ∧
    (_create_secret envCreateFail "sf_explorer_secret".data pwParams).1 =
      (false, "Invalid Input Error".data) ∧
    (_create_secret envCreateFail "sf_explorer_secret".data pwParams).2 =
      [dropSecretSQL "sf_explorer_secret".data,
       createSecretSQL "sf_explorer_secret".data pwParams] :=
  ⟨rfl,
   create_secret_drop_ignored.2.2.2.1 envCreateFail "sf_explorer_secret".data pwParams
     "Invalid Input Error".data rfl,
   create_secret_drop_ignored.1 envCreateFail "sf_explorer_secret".data pwParams⟩

/-! Helper lemma: the source clause list regrouped as base, auth-material
and optional clause groups. -/

theorem secretParts_characterisation (p : SecretParams) :
    secretParts p = baseClauses p ++ authMaterialClauses p ++ optionalClauses p := by
  rw [secretParts, baseClauses, authMaterialClauses, optionalClauses]
  split_ifs <;> simp [List.append_assoc]

/-- C1: for the three recognised auth methods, `_create_secret` attempts
exactly one DROP SECRET IF EXISTS and exactly one CREATE SECRET statement,
and the CREATE clause list is exactly the base clauses, followed by the one
non-empty auth-material clause group implied by the method (password; or
key-pair with private key and passphrase only when non-empty; or oauth
with token), followed by one DATABASE, WAREHOUSE and ROLE clause exactly
when the corresponding optional field is non-empty. -/
theorem create_secret_emits_expected_clauses (env : ExecEnv) (secret_name : Str)
    (p : SecretParams)
    (hm : p.auth_method = "Password".data ∨ p.auth_method = "Key Pair".data ∨
      p.auth_method = "OAuth Token".data) :
    (_create_secret env secret_name p).2 =
      [dropSecretSQL secret_name, createSecretSQL secret_name p] ∧
    ((_create_secret env secret_name p).2.count (dropSecretSQL secret_name) = 1 ∧
     (_create_secret env secret_name p).2.count (createSecretSQL secret_name p) = 1) ∧
    secretParts p = baseClauses p ++ authMaterialClauses p ++ optionalClauses p ∧
    authMaterialClauses p ≠ [] ∧
    (p.auth_method = "Password".data →
      authMaterialClauses p = ["PASSWORD ".data ++ quoteWrap p.password]) ∧
    (p.auth_method = "Key Pair".data →
      authMaterialClauses p =
        ["AUTH_TYPE ".data ++ quoteWrap "key_pair".data,
         "PRIVATE_KEY ".data ++ quoteWrap p.private_key_pem] ++
          (if p.private_key_passphrase ≠ [] then
             ["PRIVATE_KEY_PASSPHRASE ".data ++ quoteWrap p.private_key_passphrase]
           else [])) ∧
    (p.auth_method = "OAuth Token".data →
      authMaterialClauses p =
        ["AUTH_TYPE ".data ++ quoteWrap "oauth".data,
         "TOKEN ".data ++ quoteWrap p.oauth_token]) := by
  have hkp : ¬ ("Key Pair".data = "Password".data) := by decide
  have hop : ¬ ("OAuth Token".data = "Password".data) := by decide
  have hok : ¬ ("OAuth Token".data = "Key Pair".data) := by decide
  have hne := dropSecretSQL_ne_createSecretSQL secret_name p
  have htrace : (_create_secret env secret_name p).2 =
      [dropSecretSQL secret_name, createSecretSQL secret_name p] := by
    cases h : env (createSecretSQL secret_name p) <;> simp [_create_secret, h]
  refine ⟨htrace, ⟨?_, ?_⟩, secretParts_characterisation p, ?_, ?_, ?_, ?_⟩
  · rw [htrace]
    simp [List.count_cons, hne, Ne.symm hne]
  · rw [htrace]
    simp [List.count_cons, hne, Ne.symm hne]
  · rcases hm with h | h | h <;> simp [authMaterialClauses, h, hkp, hop, hok]
  · intro h
    simp [authMaterialClauses, h]
  · intro h
    simp [authMaterialClauses, h, hkp]
  · intro h
    simp [authMaterialClauses, h, hop, hok]

/-- Witness for C1 at the Password method with a non-empty database
field. -/
theorem create_secret_emits_expected_clauses_witness :
    (pwParamsDb.auth_method = "Password".data ∨
     pwParamsDb.auth_method = "Key Pair".data ∨
     pwParamsDb.auth_method = "OAuth Token".data) ∧
    ((_create_secret envExecOk "sf_explorer_secret".data pwParamsDb).2 =
      [dropSecretSQL "sf_explorer_secret".data,
       createSecretSQL "sf_explorer_secret".data pwParamsDb] ∧
     ((_create_secret envExecOk "sf_explorer_secret".data pwParamsDb).2.count
        (dropSecretSQL "sf_explorer_secret".data) = 1 ∧
      (_create_secret envExecOk "sf_explorer_secret".data pwParamsDb).2.count
        (createSecretSQL "sf_explorer_secret".data pwParamsDb) = 1) ∧
     secretParts pwParamsDb =
       baseClauses pwParamsDb ++ authMaterialClauses pwParamsDb ++
         optionalClauses pwParamsDb ∧
     authMaterialClauses pwParamsDb ≠ [] ∧
     (pwParamsDb.auth_method = "Password".data →
       authMaterialClauses pwParamsDb =
         ["PASSWORD ".data ++ quoteWrap pwParamsDb.password]) ∧
     (pwParamsDb.auth_method = "Key Pair".data →
       authMaterialClauses pwParamsDb =
         ["AUTH_TYPE ".data ++ quoteWrap "key_pair".data,
          "PRIVATE_KEY ".data ++ quoteWrap pwParamsDb.private_key_pem] ++
           (if pwParamsDb.private_key_passphrase ≠ [] then
              ["PRIVATE_KEY_PASSPHRASE ".data ++
                quoteWrap pwParamsDb.private_key_passphrase]
            else [])) ∧
     (pwParamsDb.auth_method = "OAuth Token".data →
       authMaterialClauses pwParamsDb =
         ["AUTH_TYPE ".data ++ quoteWrap "oauth".data,
          "TOKEN ".data ++ quoteWrap pwParamsDb.oauth_token])) :=
  ⟨Or.inl rfl,
   create_secret_emits_expected_clauses envExecOk "sf_explorer_secret".data pwParamsDb
     (Or.inl rfl)⟩

/-! Helper lemmas about the capped history. -/

theorem take_append_absorb (a b : List HistoryEntry) (n : Nat) :
    (a ++ b.take n).take n = (a ++ b).take n := by
  rw [List.take_append_eq_append_take, List.take_append_eq_append_take, List.take_take,
    Nat.min_eq_left (Nat.sub_le n a.length)]

theorem historyInsertAll_cons_eq (e : HistoryEntry) (es : List HistoryEntry)
    (h : List HistoryEntry) :
    historyInsertAll (e :: es) h = ((e :: es).reverse ++ h).take 50 := by
  induction es generalizing e h with
  | nil => simp [historyInsertAll, historyInsertQuery]
  | cons e2 es ih =>
    have step : historyInsertAll (e :: e2 :: es) h =
        historyInsertAll (e2 :: es) ((e :: h).take 50) := rfl
    rw [step, ih, take_append_absorb]
    simp

/-- C3: both insertion paths cap the history at 50 entries and put the new
entry at the front; starting from an empty history, 51 insertions (an entry
distinct from the 50 later ones, then those 50) leave exactly the 50 most
recent entries, with the first-inserted entry absent and the most recent
insertion at the front. -/
theorem history_capped_front_evict :
    (∀ (e : HistoryEntry) (h : List HistoryEntry),
      (historyInsertQuery e h).length ≤ 50 ∧ (historyInsertLocal e h).length ≤ 50) ∧
    (∀ (e : HistoryEntry) (h : List HistoryEntry),
      (historyInsertQuery e h).head? = some e ∧ (historyInsertLocal e h).head? = some e) ∧
    (∀ (e0 : HistoryEntry) (rest : List HistoryEntry), rest.length = 50 → e0 ∉ rest →
      historyInsertAll (e0 :: rest) [] = rest.reverse ∧
      e0 ∉ historyInsertAll (e0 :: rest) [] ∧
      (historyInsertAll (e0 :: rest) []).head? = (e0 :: rest).getLast?) := by
  refine ⟨?_, ?_, ?_⟩
  · intro e h
    constructor <;> · simp [historyInsertQuery, historyInsertLocal]
  · intro e h
    exact ⟨rfl, rfl⟩
  · intro e0 rest h50 hni
    have hrev : rest.reverse.length = 50 := by simp [h50]
    have heq : historyInsertAll (e0 :: rest) [] = rest.reverse := by
      rw [historyInsertAll_cons_eq]
      rw [show (e0 :: rest).reverse = rest.reverse ++ [e0] from by simp]
      rw [List.append_nil, ← hrev, List.take_left]
    have hne : rest ≠ [] := by
      intro hx
      rw [hx] at h50
      simp at h50
    refine ⟨heq, ?_, ?_⟩
    · rw [heq]
      simpa using hni
    · rw [heq, List.head?_reverse]
      cases rest with
      | nil => exact absurd rfl hne
      | cons b bs => simp [List.getLast?_cons_cons]

/-- Witness for C3 at 51 concrete pairwise-distinct entries. -/
theorem history_capped_front_evict_witness :
    (restEntries.length = 50 ∧ oldestEntry ∉ restEntries) ∧
    (historyInsertAll (oldestEntry :: restEntries) [] = restEntries.reverse ∧
     oldestEntry ∉ historyInsertAll (oldestEntry :: restEntries) [] ∧
     (historyInsertAll (oldestEntry :: restEntries) []).head? =
       (oldestEntry :: restEntries).getLast?) :=
  ⟨⟨by decide, by decide⟩,
   history_capped_front_evict.2.2 oldestEntry restEntries (by decide) (by decide)⟩

/-- C5: `_sf_fetch_list` returns the empty list without raising whenever
the underlying remote query raised or produced an empty result, for every
column selector; and on a non-empty result with a string selector the
column is found by case-insensitive name comparison (first match, missing
values dropped), falling back to the first column when no name matches. -/
theorem sf_fetch_list_error_empty_and_ci_lookup :
    (∀ (env : QueryEnv) (sf_sql secret : Str) (col : Str ⊕ Nat) (e : Str),
      env (wrapperStatement sf_sql secret) = Except.error e →
      _sf_fetch_list env sf_sql secret col = Except.ok []) ∧
    (∀ (env : QueryEnv) (sf_sql secret : Str) (col : Str ⊕ Nat) (df : DF) (t : ℚ),
      env (wrapperStatement sf_sql secret) = Except.ok (df, t) →
      df.emptyDF = true →
      _sf_fetch_list env sf_sql secret col = Except.ok []) ∧
    (∀ (env : QueryEnv) (sf_sql secret name : Str) (df : DF) (t : ℚ)
      (c : Str × List Cell),
      env (wrapperStatement sf_sql secret) = Except.ok (df, t) →
      df.emptyDF = false →
      df.cols.find? (fun x => lowerStr x.1 == lowerStr name) = some c →
      _sf_fetch_list env sf_sql secret (Sum.inl name) =
        Except.ok ((c.2.filter fun x => x != Cell.null).map cellToStr)) ∧
    (∀ (env : QueryEnv) (sf_sql secret name : Str) (df : DF) (t : ℚ),
      env (wrapperStatement sf_sql secret) = Except.ok (df, t) →
      df.emptyDF = false →
      (∀ c ∈ df.cols, lowerStr c.1 ≠ lowerStr name) →
      _sf_fetch_list env sf_sql secret (Sum.inl name) =
        (dfColByPos df 0).map fun vs => vs.map cellToStr) := by
  refine ⟨?_, ?_, ?_, ?_⟩
  · intro env sf_sql secret col e he
    simp [_sf_fetch_list, _snowflake_query, _run_query_duckdb, he]
  · intro env sf_sql secret col df t he hempty
    simp [_sf_fetch_list, _snowflake_query, _run_query_duckdb, he, hempty]
  · intro env sf_sql secret name df t c he hempty hfind
    simp [_sf_fetch_list, _snowflake_query, _run_query_duckdb, he, hempty, hfind]
  · intro env sf_sql secret name df t he hempty hnone
    have hfind : df.cols.find? (fun x => lowerStr x.1 == lowerStr name) = none := by
      rw [List.find?_eq_none]
      intro x hx
      simpa using hnone x hx
    simp [_sf_fetch_list, _snowflake_query, _run_query_duckdb, he, hempty, hfind]

/-- Witness for C5: the upper-case NAME column is found for the lower-case
query name, and its missing cell is dropped. -/
theorem sf_fetch_list_error_empty_and_ci_lookup_witness :
    (envNamed (wrapperStatement "SHOW DATABASES".data "sf_explorer_secret".data) =
       Except.ok (dfNamed, 0) ∧
     dfNamed.emptyDF = false ∧
     dfNamed.cols.find? (fun x => lowerStr x.1 == lowerStr "name".data) =
       some ("NAME".data, [Cell.val "db1".data, Cell.null])) ∧
    _sf_fetch_list envNamed "SHOW DATABASES".data "sf_explorer_secret".data
      (Sum.inl "name".data) =
      Except.ok ((([Cell.val "db1".data, Cell.null]).filter
        fun x => x != Cell.null).map cellToStr) :=
  ⟨⟨rfl, rfl, by decide⟩,
   sf_fetch_list_error_empty_and_ci_lookup.2.2.1 envNamed "SHOW DATABASES".data
     "sf_explorer_secret".data "name".data dfNamed 0
     ("NAME".data, [Cell.val "db1".data, Cell.null]) rfl rfl (by decide)⟩

/-- C10: on a non-empty result, the positional branch and the
fallback-to-first-column branch keep missing values (as their string
conversions) while the matched-name branch drops them; concretely, on a
one-column result named name holding one value and one missing cell, the
name selector returns one element while position zero returns two. -/
theorem sf_fetch_list_null_filtering :
    (∀ (env : QueryEnv) (sf_sql secret : Str) (i : Nat) (df : DF) (t : ℚ)
      (cpair : Str × List Cell),
      env (wrapperStatement sf_sql secret) = Except.ok (df, t) →
      df.emptyDF = false →
      df.cols[i]? = some cpair →
      _sf_fetch_list env sf_sql secret (Sum.inr i) =
        Except.ok (cpair.2.map cellToStr)) ∧
    (∀ (env : QueryEnv) (sf_sql secret name : Str) (df : DF) (t : ℚ)
      (cpair : Str × List Cell),
      env (wrapperStatement sf_sql secret) = Except.ok (df, t) →
      df.emptyDF = false →
      df.cols.find? (fun x => lowerStr x.1 == lowerStr name) = none →
      df.cols[0]? = some cpair →
      _sf_fetch_list env sf_sql secret (Sum.inl name) =
        Except.ok (cpair.2.map cellToStr)) ∧
    (_sf_fetch_list envNulls "SHOW DATABASES".data "sf_explorer_secret".data
        (Sum.inl "name".data) = Except.ok ["a".data] ∧
     _sf_fetch_list envNulls "SHOW DATABASES".data "sf_explorer_secret".data
        (Sum.inr 0) = Except.ok ["a".data, "nan".data] ∧
     (["a".data] : List Str).length ≠ (["a".data, "nan".data] : List Str).length) := by
  refine ⟨?_, ?_, rfl, rfl, by decide⟩
  · intro env sf_sql secret i df t cpair he hempty hget
    simp [_sf_fetch_list, _snowflake_query, _run_query_duckdb, dfColByPos, he, hempty,
      hget, Except.map]
  · intro env sf_sql secret name df t cpair he hempty hfind hget
    simp [_sf_fetch_list, _snowflake_query, _run_query_duckdb, dfColByPos, he, hempty,
      hfind, hget, Except.map]

/-- Witness for C10 at position zero of the one-column result with a
missing cell. -/
theorem sf_fetch_list_null_filtering_witness :
    (envNulls (wrapperStatement "SHOW DATABASES".data "sf_explorer_secret".data) =
       Except.ok (dfNulls, 0) ∧
     dfNulls.emptyDF = false ∧
     dfNulls.cols[0]? = some ("name".data, [Cell.val "a".data, Cell.null])) ∧
    _sf_fetch_list envNulls "SHOW DATABASES".data "sf_explorer_secret".data
      (Sum.inr 0) =
      Except.ok (([Cell.val "a".data, Cell.null]).map cellToStr) :=
  ⟨⟨rfl, rfl, rfl⟩,
   sf_fetch_list_null_filtering.1 envNulls "SHOW DATABASES".data
     "sf_explorer_secret".data 0 dfNulls 0
     ("name".data, [Cell.val "a".data, Cell.null]) rfl rfl rfl⟩
